import Mathlib

/-!
Shallow embedding of the react-agent repository
(src/react_agent/configuration.py and src/react_agent/state.py)
and proofs about its specified behaviour.
-/

namespace ReactAgent

/-- Untyped Python runtime values, as far as the configuration code can
observe them: strings, integers, booleans, None, lists and string-keyed
dictionaries (a dictionary is its ordered list of items). -/
inductive PyVal where
  | str : String → PyVal
  | int : Int → PyVal
  | bool : Bool → PyVal
  | none : PyVal
  | list : List PyVal → PyVal
  | dict : List (String × PyVal) → PyVal

/-- Python truthiness of a value, as used by the `x or y` idiom in the
source: empty strings, zero, False, None and empty containers are falsy. -/
def truthy : PyVal → Bool
  | PyVal.str s => s != ""
  | PyVal.int n => n != 0
  | PyVal.bool b => b
  | PyVal.none => false
  | PyVal.list xs => !xs.isEmpty
  | PyVal.dict kvs => !kvs.isEmpty

/-- Dictionary lookup, dict.get in Python. A Python dictionary has unique
keys, so first-match lookup over its item list is exact. -/
def pyGet (kvs : List (String × PyVal)) (k : String) : Option PyVal :=
  match kvs with
  | [] => Option.none
  | (k1, v) :: rest => if k1 = k then some v else pyGet rest k

/-- Dictionary lookup with a default, dict.get(k, d). -/
def pyGetD (kvs : List (String × PyVal)) (k : String) (d : PyVal) : PyVal :=
  (pyGet kvs k).getD d

/-- Modelled from the spec: the built-in default prompt text is the
constant SYSTEM_PROMPT of the react_agent.prompts module, which is not
among the provided source files; the spec fixes only that it is one fixed
built-in string. -/
def SYSTEM_PROMPT : String := "You are a helpful AI assistant."

/-- The Configuration dataclass of configuration.py, lines 13-51: field
names and default values taken from the source. Values are untyped
(PyVal) because a Python dataclass performs no runtime type validation. -/
structure Configuration where
  system_prompt : PyVal := PyVal.str SYSTEM_PROMPT
  model : PyVal := PyVal.str "openai/gpt-5"
  max_search_results : PyVal := PyVal.int 10
  host : PyVal := PyVal.none
  accept : PyVal := PyVal.none
  user_agent : PyVal := PyVal.none
  origin : PyVal := PyVal.none

/-- The record with every field at its default. -/
def defaultConfiguration : Configuration := {}

/-- The names of the init fields of the Configuration dataclass, the set
computed at line 91 of configuration.py as the names f.name with f.init
of fields(Configuration). -/
def configurationFields : List String :=
  ["system_prompt", "model", "max_search_results", "host", "accept",
   "user_agent", "origin"]

/-- Dataclass construction Configuration(**kwargs): an unknown keyword
raises TypeError, otherwise every supplied field takes the supplied value
and every other field takes its default. -/
def Configuration.init (kwargs : List (String × PyVal)) :
    Except String Configuration :=
  if kwargs.all (fun kv => configurationFields.contains kv.1) then
    Except.ok
      { system_prompt := pyGetD kwargs "system_prompt" (PyVal.str SYSTEM_PROMPT)
        model := pyGetD kwargs "model" (PyVal.str "openai/gpt-5")
        max_search_results := pyGetD kwargs "max_search_results" (PyVal.int 10)
        host := pyGetD kwargs "host" PyVal.none
        accept := pyGetD kwargs "accept" PyVal.none
        user_agent := pyGetD kwargs "user_agent" PyVal.none
        origin := pyGetD kwargs "origin" PyVal.none }
  else Except.error "TypeError: unexpected keyword argument"

/-- The fallback _ensure_config of configuration.py line 81-82: the
expression value or braces, mapping an absent or falsy context to the
empty dictionary and passing any truthy context through unchanged. -/
def ensure_config : Option PyVal → PyVal
  | Option.none => PyVal.dict []
  | some v => if truthy v then v else PyVal.dict []

/-- Line 90 of configuration.py: the expression where the configurable
value is cfg.get of the key configurable when cfg is a dict, else None,
and a falsy result is replaced by the empty dictionary. -/
def extractConfigurable (cfg : PyVal) : PyVal :=
  match (match cfg with
         | PyVal.dict kvs => pyGet kvs "configurable"
         | _ => Option.none) with
  | some v => if truthy v then v else PyVal.dict []
  | Option.none => PyVal.dict []

/-- Lines 91-92 of configuration.py: iterate the items of the
configurable value, keep the keys among the dataclass field names, and
construct the record. Calling items() on a truthy non-dictionary value
raises AttributeError, which the source does not catch. -/
def applyConfigurable (configurable : PyVal) : Except String Configuration :=
  match configurable with
  | PyVal.dict kvs =>
      Configuration.init (kvs.filter (fun kv => configurationFields.contains kv.1))
  | _ => Except.error "AttributeError: items is not defined on this value"

/-- The body of _ConfigAccessor.from_context, configuration.py lines
73-92, with the ambient lookup made explicit: the parameter ctx is the
outcome of the guarded get_config call at lines 84-87 (Option.none when
the capability is unavailable, the lookup raises RuntimeError, or it
returns None). The pipeline then normalizes the context, extracts the
configurable sub-mapping and builds the record from the filtered keys. -/
def from_context (ctx : Option PyVal) : Except String Configuration :=
  applyConfigurable (extractConfigurable (ensure_config ctx))

/-- The field values of a record, keyed by field name, for feeding back
as constructor overrides. -/
def Configuration.toKwargs (c : Configuration) : List (String × PyVal) :=
  [("system_prompt", c.system_prompt), ("model", c.model),
   ("max_search_results", c.max_search_results), ("host", c.host),
   ("accept", c.accept), ("user_agent", c.user_agent), ("origin", c.origin)]

/-- The ambient run context as mutable host state: from_context only ever
reads it. -/
structure Ambient where
  ctx : Option PyVal

/-- from_context as a state-passing computation over the ambient context:
the guarded get_config call reads the state and nothing in the body
writes it back changed. -/
def from_context_run (s : Ambient) : Except String Configuration × Ambient :=
  (from_context s.ctx, s)

/-- Modelled from the spec: the add_messages reducer attached to the
messages channel in state.py line 14 lives in the external langgraph
package, not among the provided source files; the spec states that
updates are merged by concatenation/append, never replacing or
reordering the existing entries. -/
def add_messages {M : Type} (left updates : List M) : List M :=
  left ++ updates

/-- The State TypedDict of state.py lines 11-15: an accumulated message
sequence and the engine-managed last-step flag. -/
structure State (M : Type) where
  messages : List M
  is_last_step : Bool

/-- One engine update of the messages channel: the reducer merges the
update into the existing sequence. -/
def State.applyUpdate {M : Type} (s : State M) (upd : List M) : State M :=
  { s with messages := add_messages s.messages upd }

/-- Filtering the items to the allowed keys does not change the lookup of
an allowed key. -/
lemma pyGet_filter_allowed (kvs : List (String × PyVal)) (k : String)
    (hk : configurationFields.contains k = true) :
    pyGet (kvs.filter (fun kv => configurationFields.contains kv.1)) k = pyGet kvs k := by
  have hk1 : k ∈ configurationFields := List.elem_iff.mp hk
  induction kvs with
  | nil => rfl
  | cons kv rest ih =>
    obtain ⟨k1, v⟩ := kv
    by_cases h1 : k1 = k
    · subst h1
      simp [List.filter_cons, hk1, pyGet]
    · by_cases h2 : k1 ∈ configurationFields
      · simp [List.filter_cons, h2, pyGet, h1]
        simpa using ih
      · simp [List.filter_cons, h2, pyGet, h1]
        simpa using ih

/-- Same statement at the level of lookup with default. -/
lemma pyGetD_filter_allowed (kvs : List (String × PyVal)) (k : String) (d : PyVal)
    (hk : configurationFields.contains k = true) :
    pyGetD (kvs.filter (fun kv => configurationFields.contains kv.1)) k d =
      pyGetD kvs k d := by
  unfold pyGetD
  rw [pyGet_filter_allowed kvs k hk]

/-- Every item surviving the filter satisfies the filter predicate. -/
lemma all_filter_self (kvs : List (String × PyVal)) (p : String × PyVal → Bool) :
    (kvs.filter p).all p = true := by
  rw [List.all_eq_true]
  intro kv hkv
  exact (List.mem_filter.mp hkv).2

/-- Constructing the record from the filtered items gives, field by
field, the value under the field name when present and the default
otherwise. -/
lemma init_filter (kvs : List (String × PyVal)) :
    Configuration.init (kvs.filter (fun kv => configurationFields.contains kv.1)) =
      Except.ok
        { system_prompt := pyGetD kvs "system_prompt" (PyVal.str SYSTEM_PROMPT)
          model := pyGetD kvs "model" (PyVal.str "openai/gpt-5")
          max_search_results := pyGetD kvs "max_search_results" (PyVal.int 10)
          host := pyGetD kvs "host" PyVal.none
          accept := pyGetD kvs "accept" PyVal.none
          user_agent := pyGetD kvs "user_agent" PyVal.none
          origin := pyGetD kvs "origin" PyVal.none } := by
  unfold Configuration.init
  rw [if_pos (all_filter_self kvs _)]
  rw [pyGetD_filter_allowed kvs "system_prompt" (PyVal.str SYSTEM_PROMPT) (by rfl),
      pyGetD_filter_allowed kvs "model" (PyVal.str "openai/gpt-5") (by rfl),
      pyGetD_filter_allowed kvs "max_search_results" (PyVal.int 10) (by rfl),
      pyGetD_filter_allowed kvs "host" PyVal.none (by rfl),
      pyGetD_filter_allowed kvs "accept" PyVal.none (by rfl),
      pyGetD_filter_allowed kvs "user_agent" PyVal.none (by rfl),
      pyGetD_filter_allowed kvs "origin" PyVal.none (by rfl)]

/-- When the normalized context is a dictionary carrying a dictionary
under the key configurable, from_context builds the record from the
filtered items of that sub-dictionary. -/
lemma from_context_dict (ctxkvs kvs : List (String × PyVal))
    (h : pyGet ctxkvs "configurable" = some (PyVal.dict kvs)) :
    from_context (some (PyVal.dict ctxkvs)) =
      Configuration.init (kvs.filter (fun kv => configurationFields.contains kv.1)) := by
  have htr : truthy (PyVal.dict ctxkvs) = true := by
    cases ctxkvs with
    | nil => exact Option.noConfusion h
    | cons a as => rfl
  have hcfg : ensure_config (some (PyVal.dict ctxkvs)) = PyVal.dict ctxkvs := by
    simp only [ensure_config]
    rw [if_pos htr]
  have hex : extractConfigurable (PyVal.dict ctxkvs) =
      if truthy (PyVal.dict kvs) = true then PyVal.dict kvs else PyVal.dict [] := by
    simp only [extractConfigurable]
    rw [h]
  unfold from_context
  rw [hcfg, hex]
  cases kvs with
  | nil => rfl
  | cons a as => rfl

/-- A non-dictionary context value degrades to the all-defaults record:
the isinstance guard maps it to an empty configurable dictionary. -/
lemma extractConfigurable_nondict (w : PyVal) (hw : ∀ kvs, w ≠ PyVal.dict kvs) :
    extractConfigurable w = PyVal.dict [] := by
  cases w with
  | dict kvs => exact absurd rfl (hw kvs)
  | str s => rfl
  | int n => rfl
  | bool b => rfl
  | none => rfl
  | list xs => rfl

/-- A non-dictionary ambient context value degrades to the all-defaults
record: whether it is truthy or falsy, the isinstance guard leaves an
empty configurable dictionary. -/
lemma from_context_nondict (v : PyVal) (hv : ∀ kvs, v ≠ PyVal.dict kvs) :
    from_context (some v) = Except.ok defaultConfiguration := by
  unfold from_context
  by_cases ht : truthy v = true
  · have hcfg : ensure_config (some v) = v := by
      simp only [ensure_config]
      rw [if_pos ht]
    rw [hcfg, extractConfigurable_nondict v hv]
    rfl
  · have hcfg : ensure_config (some v) = PyVal.dict [] := by
      simp only [ensure_config]
      rw [if_neg ht]
    rw [hcfg]
    rfl

/-- C1: for every context mapping whose configurable entry is a mapping,
from_context applies exactly the keys matching a field of the
configuration record as constructor overrides, silently discards every
other key, and leaves all fields not mentioned at their defaults. Each
field of the result is the value under its own name when present and the
field default otherwise, and no error is raised. -/
theorem C1_overrides_filtered (ctxkvs kvs : List (String × PyVal))
    (h : pyGet ctxkvs "configurable" = some (PyVal.dict kvs)) :
    from_context (some (PyVal.dict ctxkvs)) =
      Except.ok
        { system_prompt := pyGetD kvs "system_prompt" (PyVal.str SYSTEM_PROMPT)
          model := pyGetD kvs "model" (PyVal.str "openai/gpt-5")
          max_search_results := pyGetD kvs "max_search_results" (PyVal.int 10)
          host := pyGetD kvs "host" PyVal.none
          accept := pyGetD kvs "accept" PyVal.none
          user_agent := pyGetD kvs "user_agent" PyVal.none
          origin := pyGetD kvs "origin" PyVal.none } :=
  (from_context_dict ctxkvs kvs h).trans (init_filter kvs)

/-- Witness for C1 at the configurable mapping of the spec example: the
model and max_search_results overrides are applied, the unused key is
dropped without error, and every other field keeps its default. -/
theorem C1_overrides_filtered_witness :
    from_context (some (PyVal.dict [("configurable", PyVal.dict
        [("model", PyVal.str "anthropic/claude-3"),
         ("max_search_results", PyVal.int 5),
         ("unused_key", PyVal.str "x")])])) =
      Except.ok
        { model := PyVal.str "anthropic/claude-3"
          max_search_results := PyVal.int 5 } := by
  have h := C1_overrides_filtered
    [("configurable", PyVal.dict
      [("model", PyVal.str "anthropic/claude-3"),
       ("max_search_results", PyVal.int 5),
       ("unused_key", PyVal.str "x")])]
    [("model", PyVal.str "anthropic/claude-3"),
     ("max_search_results", PyVal.int 5),
     ("unused_key", PyVal.str "x")] rfl
  exact h.trans rfl

/-- C2: constructing the configuration record with no arguments yields
system_prompt equal to the built-in default prompt text, model equal to
openai/gpt-5, max_search_results equal to 10, and every pass-through
field (host, accept, user_agent, origin) absent. -/
theorem C2_default_record :
    Configuration.init [] = Except.ok defaultConfiguration ∧
    defaultConfiguration.system_prompt = PyVal.str SYSTEM_PROMPT ∧
    defaultConfiguration.model = PyVal.str "openai/gpt-5" ∧
    defaultConfiguration.max_search_results = PyVal.int 10 ∧
    defaultConfiguration.host = PyVal.none ∧
    defaultConfiguration.accept = PyVal.none ∧
    defaultConfiguration.user_agent = PyVal.none ∧
    defaultConfiguration.origin = PyVal.none :=
  ⟨rfl, rfl, rfl, rfl, rfl, rfl, rfl, rfl⟩

/-- C3: when the ambient context lookup fails (no active run context,
the lookup raises RuntimeError or returns nothing, or the capability is
unavailable), from_context does not raise and returns a record equal to
the all-defaults record. -/
theorem C3_no_context_defaults :
    from_context Option.none = Except.ok defaultConfiguration := rfl

/-- Counterexample to C4 as stated: for the context mapping whose
configurable entry is the truthy non-mapping string x, from_context
raises AttributeError instead of returning the all-defaults record,
because line 92 of configuration.py calls items() on that value and no
handler catches the failure. -/
theorem C4_counterexample :
    from_context (some (PyVal.dict [("configurable", PyVal.str "x")])) =
      Except.error "AttributeError: items is not defined on this value" := rfl

/-- C4 (amended): for every context value whose top level is not a
mapping (including absent entirely), and for every context mapping whose
configurable entry is absent or falsy (such as None or an empty value),
from_context does not raise and returns the all-defaults record. -/
theorem C4_amended_defaults (ctx : Option PyVal)
    (h : (∀ kvs, ctx ≠ some (PyVal.dict kvs)) ∨
      (∃ kvs, ctx = some (PyVal.dict kvs) ∧
        (pyGet kvs "configurable" = Option.none ∨
         (∃ v, pyGet kvs "configurable" = some v ∧ truthy v = false)))) :
    from_context ctx = Except.ok defaultConfiguration := by
  cases ctx with
  | none => rfl
  | some v =>
    rcases h with hnd | ⟨kvs, hctx, hcfg⟩
    · refine from_context_nondict v ?_
      intro kvs he
      exact hnd kvs (by rw [he])
    · obtain rfl : v = PyVal.dict kvs := by
        injection hctx
      cases kvs with
      | nil => rfl
      | cons kv rest =>
        have hens : ensure_config (some (PyVal.dict (kv :: rest))) =
            PyVal.dict (kv :: rest) := by
          simp only [ensure_config]
          rw [if_pos (show truthy (PyVal.dict (kv :: rest)) = true from rfl)]
        have hex : extractConfigurable (PyVal.dict (kv :: rest)) = PyVal.dict [] := by
          simp only [extractConfigurable]
          rcases hcfg with hnone | ⟨w, hw, hfalse⟩
          · rw [hnone]
          · rw [hw]
            simp [hfalse]
        unfold from_context
        rw [hens, hex]
        rfl

/-- Witness for C4 (amended) at a truthy non-mapping top-level context
value: the factory returns the all-defaults record. -/
theorem C4_amended_defaults_witness :
    from_context (some (PyVal.str "hello")) = Except.ok defaultConfiguration :=
  C4_amended_defaults (some (PyVal.str "hello"))
    (Or.inl (fun _ he => PyVal.noConfusion (Option.some.inj he)))

/-- C5: the messages field accumulates by appending. For every prior
message sequence and every update, the new sequence is the old sequence
with the entries of the update appended at the end, and after the two
sequential updates of the singleton sequences a and b starting from the
empty state, messages equals the two-element sequence a then b. -/
theorem C5_messages_append :
    (∀ (M : Type) (s : State M) (upd : List M),
        (State.applyUpdate s upd).messages = s.messages ++ upd) ∧
    (State.applyUpdate (State.applyUpdate (State.mk ([] : List String) false)
        ["a"]) ["b"]).messages = ["a", "b"] :=
  ⟨fun _ _ _ => rfl, rfl⟩

/-- C6: round-trip. For every configuration record produced by
from_context, passing the field values of that record back as keyword
overrides reconstructs a record equal to the original. -/
theorem C6_roundtrip (ctx : Option PyVal) (c : Configuration)
    (h : from_context ctx = Except.ok c) :
    Configuration.init (Configuration.toKwargs c) = Except.ok c := by
  cases c
  rfl

/-- Witness for C6 at the record the factory produces for an absent
context, namely the all-defaults record. -/
theorem C6_roundtrip_witness :
    Configuration.init (Configuration.toKwargs defaultConfiguration) =
      Except.ok defaultConfiguration :=
  C6_roundtrip Option.none defaultConfiguration rfl

/-- C7: construction of the configuration record succeeds with any
subset of its named fields supplied as keyword overrides, each supplied
override being stored unchanged in the corresponding field, and no bound
is enforced on max_search_results: every integer is accepted and stored
as given. -/
theorem C7_construction_total (kwargs : List (String × PyVal))
    (h : kwargs.all (fun kv => configurationFields.contains kv.1) = true) :
    (∃ c, Configuration.init kwargs = Except.ok c ∧
      (∀ v, pyGet kwargs "system_prompt" = some v → c.system_prompt = v) ∧
      (∀ v, pyGet kwargs "model" = some v → c.model = v) ∧
      (∀ v, pyGet kwargs "max_search_results" = some v → c.max_search_results = v) ∧
      (∀ v, pyGet kwargs "host" = some v → c.host = v) ∧
      (∀ v, pyGet kwargs "accept" = some v → c.accept = v) ∧
      (∀ v, pyGet kwargs "user_agent" = some v → c.user_agent = v) ∧
      (∀ v, pyGet kwargs "origin" = some v → c.origin = v)) ∧
    (∀ n : Int, Configuration.init [("max_search_results", PyVal.int n)] =
      Except.ok { max_search_results := PyVal.int n }) := by
  constructor
  · have hinit : Configuration.init kwargs = Except.ok
        { system_prompt := pyGetD kwargs "system_prompt" (PyVal.str SYSTEM_PROMPT)
          model := pyGetD kwargs "model" (PyVal.str "openai/gpt-5")
          max_search_results := pyGetD kwargs "max_search_results" (PyVal.int 10)
          host := pyGetD kwargs "host" PyVal.none
          accept := pyGetD kwargs "accept" PyVal.none
          user_agent := pyGetD kwargs "user_agent" PyVal.none
          origin := pyGetD kwargs "origin" PyVal.none } := by
      unfold Configuration.init
      rw [if_pos h]
    refine ⟨_, hinit, ?_, ?_, ?_, ?_, ?_, ?_, ?_⟩
    all_goals intro v hv
    all_goals simp [pyGetD, hv]
  · intro n
    rfl

/-- Witness for C7 at the single override storing a negative value in
max_search_results: construction succeeds and the value is stored as
given. -/
theorem C7_construction_total_witness :
    ∃ c, Configuration.init [("max_search_results", PyVal.int (-5))] =
        Except.ok c ∧ c.max_search_results = PyVal.int (-5) := by
  obtain ⟨⟨c, hc, _, _, hm, _, _, _, _⟩, _⟩ :=
    C7_construction_total [("max_search_results", PyVal.int (-5))] rfl
  exact ⟨c, hc, hm _ rfl⟩

/-- C8: from_context is side-effect free and deterministic in the
ambient context: run as a state-passing computation it returns the
ambient state unchanged, and two invocations against the same ambient
context value return equal configuration records. -/
theorem C8_pure_deterministic :
    (∀ s : Ambient, (from_context_run s).2 = s) ∧
    (∀ s1 s2 : Ambient, s1.ctx = s2.ctx →
      (from_context_run s1).1 = (from_context_run s2).1) :=
  ⟨fun _ => rfl, fun s1 s2 h => by simp [from_context_run, h]⟩

/-- Witness for C8 at the empty ambient state: the state is unchanged
and the two results agree. -/
theorem C8_pure_deterministic_witness :
    (from_context_run (Ambient.mk Option.none)).2 = Ambient.mk Option.none ∧
    (from_context_run (Ambient.mk Option.none)).1 =
      (from_context_run (Ambient.mk Option.none)).1 :=
  ⟨C8_pure_deterministic.1 (Ambient.mk Option.none),
   C8_pure_deterministic.2 (Ambient.mk Option.none) (Ambient.mk Option.none) rfl⟩

/-- C9: the pass-through fields host, accept, user_agent and origin are
settable through the factory: for every context whose configurable
mapping contains one of these keys, possibly among any other keys, the
factory succeeds and the corresponding field of the resulting record
equals the supplied value. -/
theorem C9_passthrough_settable (ctxkvs kvs : List (String × PyVal))
    (h : pyGet ctxkvs "configurable" = some (PyVal.dict kvs)) :
    ∃ c, from_context (some (PyVal.dict ctxkvs)) = Except.ok c ∧
      (∀ v, pyGet kvs "host" = some v → c.host = v) ∧
      (∀ v, pyGet kvs "accept" = some v → c.accept = v) ∧
      (∀ v, pyGet kvs "user_agent" = some v → c.user_agent = v) ∧
      (∀ v, pyGet kvs "origin" = some v → c.origin = v) := by
  refine ⟨_, (from_context_dict ctxkvs kvs h).trans (init_filter kvs),
    ?_, ?_, ?_, ?_⟩
  all_goals intro v hv
  all_goals simp [pyGetD, hv]

/-- Witness for C9 at a configurable mapping carrying all four
pass-through keys alongside a model override: every supplied value lands
in its field. -/
theorem C9_passthrough_settable_witness :
    ∃ c, from_context (some (PyVal.dict [("configurable", PyVal.dict
        [("host", PyVal.str "h1"), ("accept", PyVal.str "a1"),
         ("user_agent", PyVal.str "u1"), ("origin", PyVal.str "o1"),
         ("model", PyVal.str "m")])])) = Except.ok c ∧
      c.host = PyVal.str "h1" ∧ c.accept = PyVal.str "a1" ∧
      c.user_agent = PyVal.str "u1" ∧ c.origin = PyVal.str "o1" := by
  obtain ⟨c, hc, hh, ha, hu, ho⟩ :=
    C9_passthrough_settable
      [("configurable", PyVal.dict
        [("host", PyVal.str "h1"), ("accept", PyVal.str "a1"),
         ("user_agent", PyVal.str "u1"), ("origin", PyVal.str "o1"),
         ("model", PyVal.str "m")])]
      [("host", PyVal.str "h1"), ("accept", PyVal.str "a1"),
       ("user_agent", PyVal.str "u1"), ("origin", PyVal.str "o1"),
       ("model", PyVal.str "m")] rfl
  exact ⟨c, hc, hh _ rfl, ha _ rfl, hu _ rfl, ho _ rfl⟩

/-- C10: from_context performs no validation of override values. For
every configurable mapping, construction succeeds and whatever value
accompanies an allowed key, of any type, is stored unchanged in the
record. -/
theorem C10_no_validation (kvs : List (String × PyVal)) :
    ∃ c, from_context (some (PyVal.dict [("configurable", PyVal.dict kvs)])) =
        Except.ok c ∧
      (∀ v, pyGet kvs "system_prompt" = some v → c.system_prompt = v) ∧
      (∀ v, pyGet kvs "model" = some v → c.model = v) ∧
      (∀ v, pyGet kvs "max_search_results" = some v → c.max_search_results = v) ∧
      (∀ v, pyGet kvs "host" = some v → c.host = v) ∧
      (∀ v, pyGet kvs "accept" = some v → c.accept = v) ∧
      (∀ v, pyGet kvs "user_agent" = some v → c.user_agent = v) ∧
      (∀ v, pyGet kvs "origin" = some v → c.origin = v) := by
  refine ⟨_, (from_context_dict [("configurable", PyVal.dict kvs)] kvs rfl).trans
    (init_filter kvs), ?_, ?_, ?_, ?_, ?_, ?_, ?_⟩
  all_goals intro v hv
  all_goals simp [pyGetD, hv]

/-- Witness for C10 at a configurable mapping storing a string under
max_search_results: construction succeeds and the non-integer value is
stored unchanged. -/
theorem C10_no_validation_witness :
    ∃ c, from_context (some (PyVal.dict [("configurable",
        PyVal.dict [("max_search_results", PyVal.str "not-an-int")])])) =
        Except.ok c ∧ c.max_search_results = PyVal.str "not-an-int" := by
  obtain ⟨c, hc, _, _, hm, _, _, _, _⟩ :=
    C10_no_validation [("max_search_results", PyVal.str "not-an-int")]
  exact ⟨c, hc, hm _ rfl⟩

end ReactAgent
